import Mathlib

/-!
Verification development for the knowledge-table backend services:
`services/json_encoder.py` (a custom JSON encoder with a type-dispatch
table) and `services/llm.py` (prompt construction and LLM query functions
with fixed fallback values on failure).

Python runtime values that can reach the encoder are embedded as the
inductive type `PyVal`.  The encoder methods `CustomJSONEncoder.default`,
`CustomJSONEncoder.encode_chunk` and `CustomJSONEncoder.encode_chunk_metadata`
are translated branch for branch from the source.  Exceptions are embedded
as `Except`: a raised exception is `Except.error`, a normal return is
`Except.ok`.
-/

/-- Embeds the external `whyhow.ChunkMetadata` object (third-party SDK, not
part of this repository).  The encoder only reads the eight attributes
listed in `encode_chunk_metadata`; each may be `None` in Python, hence the
`Option` types.  The Python field `end` is rendered `end_` because `end` is
a Lean keyword. -/
structure KChunkMetadata where
  language : Option String
  length : Option Int
  size : Option Int
  data_source_type : Option String
  index : Option Int
  page : Option Int
  start : Option Int
  end_ : Option Int

mutual

/-- Embedding of the Python runtime values the encoder dispatches on.
One constructor per `isinstance`/`hasattr` class tested by
`CustomJSONEncoder.default`, plus the plain values (`None`, `int`, `float`,
`str`, `list`, `dict`) that fall through every dispatch branch.  Floats are
carried as their integral value (no claim depends on float arithmetic). -/
inductive PyVal : Type where
  | pyNone : PyVal
  | pyInt : Int → PyVal
  | pyFloat : Int → PyVal
  | pyStr : String → PyVal
  | pyList : List PyVal → PyVal
  | pyDict : List (String × PyVal) → PyVal
  | pyBool : Bool → PyVal
  | pyDate : String → PyVal
  | pyDecimal : Int → PyVal
  | pySet : List PyVal → PyVal
  | pyFrozenset : List PyVal → PyVal
  | pyChunk : KChunk → PyVal
  | pyChunkMetadata : KChunkMetadata → PyVal
  | pyNdarray : List Int → PyVal
  | pyNpInt : Int → PyVal
  | pyNpFloat : Int → PyVal
  | pyToDictObj : List (String × PyVal) → PyVal
  | pyObj : List (String × PyVal) → PyVal

/-- Embeds the external `whyhow.Chunk` object (third-party SDK).  Field
order follows `encode_chunk`: chunk_id, created_at, updated_at,
document_id, workspace_ids, metadata, content, embedding, tags,
user_metadata.  `created_at`/`updated_at` carry the ISO-8601 string their
`isoformat()` would produce; `embedding` is an arbitrary runtime value
(vector, `None`, ...), exactly what `encode_chunk` hands to `default`. -/
inductive KChunk : Type where
  | mk : String → Option String → Option String → String → List String →
      Option KChunkMetadata → String → PyVal → List String →
      List (String × PyVal) → KChunk

end

mutual

/-- Models the Python builtin `str` applied to an embedded runtime value.
The cases a claim depends on (`None`, `bool`, `int`, `str`) follow CPython
exactly; container and object representations are nominal renderings whose
precise text no claim depends on. -/
def strRepr : PyVal → String
  | PyVal.pyNone => "None"
  | PyVal.pyInt n => toString n
  | PyVal.pyFloat v => toString v ++ ".0"
  | PyVal.pyStr s => s
  | PyVal.pyList elems => "[" ++ String.intercalate ", " (strReprList elems) ++ "]"
  | PyVal.pyDict fields => "\x7b" ++ String.intercalate ", " (strReprFields fields) ++ "\x7d"
  | PyVal.pyBool b => if b then "True" else "False"
  | PyVal.pyDate iso => iso
  | PyVal.pyDecimal v => toString v
  | PyVal.pySet elems => "\x7b" ++ String.intercalate ", " (strReprList elems) ++ "\x7d"
  | PyVal.pyFrozenset elems =>
      "frozenset(\x7b" ++ String.intercalate ", " (strReprList elems) ++ "\x7d)"
  | PyVal.pyChunk _ => "Chunk(...)"
  | PyVal.pyChunkMetadata _ => "ChunkMetadata(...)"
  | PyVal.pyNdarray elems => "[" ++ String.intercalate " " (elems.map toString) ++ "]"
  | PyVal.pyNpInt n => toString n
  | PyVal.pyNpFloat v => toString v ++ ".0"
  | PyVal.pyToDictObj _ => "<object>"
  | PyVal.pyObj _ => "<object>"

/-- `str` applied elementwise to a list of values. -/
def strReprList : List PyVal → List String
  | [] => []
  | v :: rest => strRepr v :: strReprList rest

/-- `str` applied to the entries of a dict. -/
def strReprFields : List (String × PyVal) → List String
  | [] => []
  | (k, v) :: rest => (k ++ ": " ++ strRepr v) :: strReprFields rest

end

/-- Models the Python string method `lower` (the values it is applied to
here, "True" and "False", are ASCII). -/
def pyLower (s : String) : String := String.mk (s.data.map Char.toLower)

/-- Embeds the base-class method `json.JSONEncoder.default`, which
unconditionally raises `TypeError` ("Object of type ... is not JSON
serializable") for every argument.  `default` calls it inside a
`try`/`except TypeError` as its last resort. -/
def JSONEncoder.default (_obj : PyVal) : Except String PyVal :=
  Except.error "TypeError: Object is not JSON serializable"

/-- Embeds `CustomJSONEncoder.encode_chunk_metadata` (json_encoder.py
lines 69-80): copies the eight metadata attributes verbatim into a dict. -/
def CustomJSONEncoder.encode_chunk_metadata (metadata : KChunkMetadata) :
    List (String × PyVal) :=
  [("language", match metadata.language with
      | some s => PyVal.pyStr s
      | none => PyVal.pyNone),
   ("length", match metadata.length with
      | some n => PyVal.pyInt n
      | none => PyVal.pyNone),
   ("size", match metadata.size with
      | some n => PyVal.pyInt n
      | none => PyVal.pyNone),
   ("data_source_type", match metadata.data_source_type with
      | some s => PyVal.pyStr s
      | none => PyVal.pyNone),
   ("index", match metadata.index with
      | some n => PyVal.pyInt n
      | none => PyVal.pyNone),
   ("page", match metadata.page with
      | some n => PyVal.pyInt n
      | none => PyVal.pyNone),
   ("start", match metadata.start with
      | some n => PyVal.pyInt n
      | none => PyVal.pyNone),
   ("end", match metadata.end_ with
      | some n => PyVal.pyInt n
      | none => PyVal.pyNone)]

mutual

/-- Embeds `CustomJSONEncoder.default` (json_encoder.py lines 15-44) branch
for branch in source order: bool, datetime/date, Decimal, set/frozenset,
Chunk, ChunkMetadata, np.ndarray, np.integer, np.floating, objects with
`to_dict`, objects with `__dict__` (recursively encoded), and finally
`try: super().default(obj) except TypeError: return str(obj)`.  The method
returns a Python value (type `Any` in the source), which is why the result
type is again `PyVal`. -/
def CustomJSONEncoder.default : PyVal → PyVal
  | PyVal.pyBool b => PyVal.pyStr (pyLower (strRepr (PyVal.pyBool b)))
  | PyVal.pyDate iso => PyVal.pyStr iso
  | PyVal.pyDecimal v => PyVal.pyFloat v
  | PyVal.pySet elems => PyVal.pyList elems
  | PyVal.pyFrozenset elems => PyVal.pyList elems
  | PyVal.pyChunk c => PyVal.pyDict (CustomJSONEncoder.encode_chunk c)
  | PyVal.pyChunkMetadata m =>
      PyVal.pyDict (CustomJSONEncoder.encode_chunk_metadata m)
  | PyVal.pyNdarray elems => PyVal.pyList (elems.map PyVal.pyInt)
  | PyVal.pyNpInt n => PyVal.pyInt n
  | PyVal.pyNpFloat v => PyVal.pyFloat v
  | PyVal.pyToDictObj d => PyVal.pyDict d
  | PyVal.pyObj attrs => PyVal.pyDict (CustomJSONEncoder.defaultFields attrs)
  | obj =>
      match JSONEncoder.default obj with
      | Except.ok v => v
      | Except.error _ => PyVal.pyStr (strRepr obj)

/-- Embeds the dict comprehension
`{key: self.default(value) for key, value in obj.__dict__.items()}`. -/
def CustomJSONEncoder.defaultFields :
    List (String × PyVal) → List (String × PyVal)
  | [] => []
  | (k, v) :: rest =>
      (k, CustomJSONEncoder.default v) :: CustomJSONEncoder.defaultFields rest

/-- Embeds `CustomJSONEncoder.encode_chunk` (json_encoder.py lines 46-67):
an explicit dict of the chunk's fields, with the timestamps rendered as
ISO strings or `None`, the metadata recursively encoded or `None`, and the
embedding passed through `self.default`. -/
def CustomJSONEncoder.encode_chunk : KChunk → List (String × PyVal)
  | KChunk.mk chunk_id created_at updated_at document_id workspace_ids
      metadata content embedding tags user_metadata =>
    [("chunk_id", PyVal.pyStr chunk_id),
     ("created_at", match created_at with
        | some iso => PyVal.pyStr iso
        | none => PyVal.pyNone),
     ("updated_at", match updated_at with
        | some iso => PyVal.pyStr iso
        | none => PyVal.pyNone),
     ("document_id", PyVal.pyStr document_id),
     ("workspace_ids", PyVal.pyList (workspace_ids.map PyVal.pyStr)),
     ("metadata", match metadata with
        | some m => PyVal.pyDict (CustomJSONEncoder.encode_chunk_metadata m)
        | none => PyVal.pyNone),
     ("content", PyVal.pyStr content),
     ("embedding", CustomJSONEncoder.default embedding),
     ("tags", PyVal.pyList (tags.map PyVal.pyStr)),
     ("user_metadata", PyVal.pyDict user_metadata)]

end

/-- `isinstance(obj, bool)`: the guard of the first dispatch branch of
`CustomJSONEncoder.default`. -/
def isBool : PyVal → Bool
  | PyVal.pyBool _ => true
  | _ => false

/-- True exactly when one of the eleven explicit dispatch branches of
`CustomJSONEncoder.default` (before the final `try`/`except` fallback)
handles the value. -/
def handledByDispatch : PyVal → Bool
  | PyVal.pyBool _ => true
  | PyVal.pyDate _ => true
  | PyVal.pyDecimal _ => true
  | PyVal.pySet _ => true
  | PyVal.pyFrozenset _ => true
  | PyVal.pyChunk _ => true
  | PyVal.pyChunkMetadata _ => true
  | PyVal.pyNdarray _ => true
  | PyVal.pyNpInt _ => true
  | PyVal.pyNpFloat _ => true
  | PyVal.pyToDictObj _ => true
  | PyVal.pyObj _ => true
  | _ => false

/-!
Embedding of `services/llm.py`.  The module's prompt templates come from
`services/prompts.py`, which is not under `src/`; each LLM function
therefore takes its template(s) as an explicit parameter standing for the
module-level global, and concrete placeholder templates are modelled below
for evaluation.  The remote structured-output API call is a function
parameter returning `Except`: `Except.error` is a raised exception,
`Except.ok` a validated response. -/

/-- Modelled from the spec: `Rule` from `models/query.py` (not under
`src/`): "a constraint on an answer, tagged by kind (`must_return`,
`may_return`, `max_length`), carrying either an allowed-value list
(`options`) or a maximum item count (`length`)". -/
structure Rule where
  type : String
  options : Option (List String)
  length : Option Int

/-- Python truthiness of `str_rule.options` (a `list[str] | None`): `None`
and the empty list are falsy. -/
def truthyOptions : Option (List String) → Bool
  | some l => !l.isEmpty
  | none => false

/-- Embeds `_get_str_rule_line` (llm.py lines 167-175). -/
def _get_str_rule_line (str_rule : Option Rule) (query : String) : String :=
  match str_rule with
  | some r =>
    if r.type == "must_return" && truthyOptions r.options then
      let options_str :=
        String.intercalate ", "
          ((r.options.getD []).map (fun option => "\"" ++ option ++ "\""))
      "You should only consider these possible values when answering the question: "
        ++ options_str
        ++ ". If these values do not exist in the raw text chunks, or if they do not correctly answer the question, respond with \"not found\"."
    else if r.type == "may_return" && truthyOptions r.options then
      let options_str := String.intercalate ", " (r.options.getD [])
      "For example: Query: " ++ query ++ " Response: " ++ options_str
        ++ ", etc... If you cannot find a related, correct answer in the raw text chunks, respond with \"not found\"."
    else ""
  | none => ""

/-- Embeds `_get_int_rule_line` (llm.py lines 177-179).  The source is
annotated `-> str` but has no `return` statement for the case where
`int_rule` is absent or has no `length`; a Python function that falls off
its end returns `None`, embedded here as `none`. -/
def _get_int_rule_line (int_rule : Option Rule) : Option String :=
  match int_rule with
  | some r =>
    match r.length with
    | some len =>
        some ("Your answer should only return up to " ++ toString len
          ++ " items. If you have to choose between multiple, return those that answer the question the best.")
    | none => none
  | none => none

/-- One piece of a `string.Template`: literal text or a `$named`
placeholder. -/
inductive TPart : Type where
  | lit : String → TPart
  | var : String → TPart

/-- A `string.Template` as the code uses it: a sequence of literal pieces
and named placeholders. -/
abbrev Template := List TPart

/-- Embeds `string.Template.substitute(mapping)`: splice the mapping's
value into each placeholder, raising `KeyError` on the first placeholder
missing from the mapping. -/
def substitute : Template → List (String × String) → Except String String
  | [], _ => Except.ok ""
  | TPart.lit s :: rest, env =>
    match substitute rest env with
    | Except.ok r => Except.ok (s ++ r)
    | Except.error e => Except.error e
  | TPart.var n :: rest, env =>
    match env.lookup n with
    | some v =>
      match substitute rest env with
      | Except.ok r => Except.ok (v ++ r)
      | Except.error e => Except.error e
    | none => Except.error ("KeyError: " ++ n)

/-- `Template.substitute` converts each mapping value with `str`; a rule
line that is the Python `None` is therefore spliced as the text "None". -/
def strOfPyOption : Option String → String
  | some s => s
  | none => "None"

/-- `rule.type in ["must_return", "may_return"]`: the predicate selecting
`str_rule` on llm.py line 42. -/
def isStrRuleType (rule : Rule) : Bool :=
  rule.type == "must_return" || rule.type == "may_return"

/-- `rule.type == "max_length"`: the predicate selecting `int_rule` on
llm.py line 43. -/
def isIntRuleType (rule : Rule) : Bool :=
  rule.type == "max_length"

/-- The structured-output shapes requested from the API (the
`*ResponseModel` classes of `models/llm_response.py`). -/
inductive OutputModel : Type where
  | BoolResponseModel : OutputModel
  | IntResponseModel : OutputModel
  | IntArrayResponseModel : OutputModel
  | StrResponseModel : OutputModel
  | StrArrayResponseModel : OutputModel

/-- The `Literal["int", "str", "bool", "int_array", "str_array"]` format
argument of `generate_response`. -/
inductive QueryFormat : Type where
  | int : QueryFormat
  | str : QueryFormat
  | bool : QueryFormat
  | int_array : QueryFormat
  | str_array : QueryFormat

/-- The prompt-construction phase of `generate_response` (llm.py lines
42-66), everything before the `try` block: select the first matching
rules, render the format-specific instructions, and substitute the base
prompt.  Returns the prompt and the chosen output model, or the exception
a failed substitution raises. -/
def generate_response_prompt (STR_ARRAY_INSTRUCTIONS : Template)
    (INT_ARRAY_INSTRUCTIONS : Template) (BASE_PROMPT : Template)
    (BOOL_INSTRUCTIONS : String) (query chunks : String) (rules : List Rule)
    (format : QueryFormat) : Except String (String × OutputModel) :=
  let str_rule := rules.find? isStrRuleType
  let int_rule := rules.find? isIntRuleType
  let formatSpecific : Except String (String × OutputModel) :=
    match format with
    | QueryFormat.bool =>
        Except.ok (BOOL_INSTRUCTIONS, OutputModel.BoolResponseModel)
    | QueryFormat.str_array =>
      match substitute STR_ARRAY_INSTRUCTIONS
          [("str_rule_line", _get_str_rule_line str_rule query),
           ("int_rule_line", strOfPyOption (_get_int_rule_line int_rule))] with
      | Except.ok s => Except.ok (s, OutputModel.StrArrayResponseModel)
      | Except.error e => Except.error e
    | QueryFormat.str =>
      match substitute STR_ARRAY_INSTRUCTIONS
          [("str_rule_line", _get_str_rule_line str_rule query),
           ("int_rule_line", strOfPyOption (_get_int_rule_line int_rule))] with
      | Except.ok s => Except.ok (s, OutputModel.StrResponseModel)
      | Except.error e => Except.error e
    | QueryFormat.int_array =>
      match substitute INT_ARRAY_INSTRUCTIONS
          [("int_rule_line", strOfPyOption (_get_int_rule_line int_rule))] with
      | Except.ok s => Except.ok (s, OutputModel.IntArrayResponseModel)
      | Except.error e => Except.error e
    | QueryFormat.int =>
      match substitute INT_ARRAY_INSTRUCTIONS
          [("int_rule_line", strOfPyOption (_get_int_rule_line int_rule))] with
      | Except.ok s => Except.ok (s, OutputModel.IntResponseModel)
      | Except.error e => Except.error e
  match formatSpecific with
  | Except.error e => Except.error e
  | Except.ok (format_specific_instructions, output_model) =>
    match substitute BASE_PROMPT
        [("query", query), ("chunks", chunks),
         ("format_specific_instructions", format_specific_instructions)] with
    | Except.ok prompt => Except.ok (prompt, output_model)
    | Except.error e => Except.error e

/-- Embeds `generate_response` (llm.py lines 33-77): build the prompt
(outside the `try`, so a substitution error propagates), then call the
API; inside the `try`/`except`, a raised exception is replaced by the
fallback `{"answer": None}`, a success returns `response.model_dump()`. -/
def generate_response (STR_ARRAY_INSTRUCTIONS : Template)
    (INT_ARRAY_INSTRUCTIONS : Template) (BASE_PROMPT : Template)
    (BOOL_INSTRUCTIONS : String)
    (call : String → OutputModel → Except String (List (String × PyVal)))
    (query chunks : String) (rules : List Rule) (format : QueryFormat) :
    Except String (List (String × PyVal)) :=
  match generate_response_prompt STR_ARRAY_INSTRUCTIONS
      INT_ARRAY_INSTRUCTIONS BASE_PROMPT BOOL_INSTRUCTIONS query chunks
      rules format with
  | Except.error e => Except.error e
  | Except.ok (prompt, output_model) =>
    Except.ok (match call prompt output_model with
      | Except.ok dump => dump
      | Except.error _ => [("answer", PyVal.pyNone)])

/-- Embeds `get_keywords` (llm.py lines 79-92): render the keyword prompt
(before the `try`), call the API; on success return
`{"keywords": response.keywords}`, on exception the fallback
`{"keywords": []}`. -/
def get_keywords (KEYWORD_PROMPT : Template)
    (call : String → Except String (List String)) (query : String) :
    Except String (List (String × PyVal)) :=
  match substitute KEYWORD_PROMPT [("query", query)] with
  | Except.error e => Except.error e
  | Except.ok prompt =>
    Except.ok (match call prompt with
      | Except.ok response =>
          [("keywords", PyVal.pyList (response.map PyVal.pyStr))]
      | Except.error _ => [("keywords", PyVal.pyList [])])

/-- Embeds `get_similar_keywords` (llm.py lines 94-112).  The `rule`
argument is a `list[str]`; `Template.substitute` splices its `str`
representation. -/
def get_similar_keywords (SIMILAR_KEYWORDS_PROMPT : Template)
    (call : String → Except String (List String)) (chunks : String)
    (rule : List String) : Except String (List (String × PyVal)) :=
  match substitute SIMILAR_KEYWORDS_PROMPT
      [("rule", strRepr (PyVal.pyList (rule.map PyVal.pyStr))),
       ("chunks", chunks)] with
  | Except.error e => Except.error e
  | Except.ok prompt =>
    Except.ok (match call prompt with
      | Except.ok response =>
          [("keywords", PyVal.pyList (response.map PyVal.pyStr))]
      | Except.error _ => [("keywords", PyVal.pyList [])])

/-- Embeds `decompose_query` (llm.py lines 114-129). -/
def decompose_query (DECOMPOSE_QUERY_PROMPT : Template)
    (call : String → Except String (List String)) (query : String) :
    Except String (List (String × PyVal)) :=
  match substitute DECOMPOSE_QUERY_PROMPT [("query", query)] with
  | Except.error e => Except.error e
  | Except.ok prompt =>
    Except.ok (match call prompt with
      | Except.ok response =>
          [("sub-queries", PyVal.pyList (response.map PyVal.pyStr))]
      | Except.error _ => [("sub-queries", PyVal.pyList [])])

/-- Modelled from the spec: the column prompt of `models/graph.py` (not
under `src/`); `generate_schema` reads `entityType`, `type` and `query`. -/
structure ColumnPrompt where
  entityType : String
  type : String
  query : String

/-- Modelled from the spec: a table column (`models/graph.py`, not under
`src/`); `generate_schema` reads `id` and `prompt`. -/
structure Column where
  id : String
  prompt : ColumnPrompt

/-- Modelled from the spec: a document reference; `generate_schema` reads
`row.document.name`. -/
structure KDocument where
  name : String

/-- Modelled from the spec: a table row carrying its document. -/
structure KRow where
  document : KDocument

/-- Modelled from the spec: the `Table` structure supplied by the
table-construction pipeline (`models/graph.py`, not under `src/`). -/
structure Table where
  rows : List KRow
  columns : List Column

/-- Models `json.dumps` of one prepared column dict (id, entity_type,
type, question); exact whitespace is immaterial to every claim. -/
def dumpColumn (column : Column) : String :=
  "\x7b\"id\": \"" ++ column.id ++ "\", \"entity_type\": \""
    ++ column.prompt.entityType ++ "\", \"type\": \"" ++ column.prompt.type
    ++ "\", \"question\": \"" ++ column.prompt.query ++ "\"\x7d"

/-- Models `json.dumps(prepared_data["columns"], indent=2)`. -/
def dumpColumns (columns : List Column) : String :=
  "[" ++ String.intercalate ", " (columns.map dumpColumn) ++ "]"

/-- The substitution mapping `generate_schema` builds from `prepared_data`
(llm.py lines 135-154).  `list(set(...))` deduplicates the document names
with unspecified iteration order, modelled as first-occurrence order. -/
def schemaEnv (data : Table) : List (String × String) :=
  let documents := (data.rows.map (fun row => row.document.name)).eraseDups
  let entity_types := data.columns.map (fun column => column.prompt.entityType)
  [("documents", String.intercalate ", " documents),
   ("columns", dumpColumns data.columns),
   ("entity_types", String.intercalate ", " entity_types)]

/-- Embeds `generate_schema` (llm.py lines 131-165): prepare the data and
render the schema prompt (before the `try`), call the API; on success
return `{"schema": response.model_dump()}`, on exception the fallback
`{"schema": {"relationships": []}}`. -/
def generate_schema (SCHEMA_PROMPT : Template)
    (call : String → Except String (List (String × PyVal))) (data : Table) :
    Except String (List (String × PyVal)) :=
  match substitute SCHEMA_PROMPT (schemaEnv data) with
  | Except.error e => Except.error e
  | Except.ok prompt =>
    Except.ok (match call prompt with
      | Except.ok schemaDump => [("schema", PyVal.pyDict schemaDump)]
      | Except.error _ =>
          [("schema", PyVal.pyDict [("relationships", PyVal.pyList [])])])

/-- Modelled from the spec: `KEYWORD_PROMPT` from `services/prompts.py`
(not under `src/`), a fixed template with a `query` placeholder. -/
def KEYWORD_PROMPT : Template :=
  [TPart.lit "Extract keywords from the following query: ", TPart.var "query"]

/-- Modelled from the spec: `SIMILAR_KEYWORDS_PROMPT` from
`services/prompts.py` (not under `src/`), with `rule` and `chunks`
placeholders. -/
def SIMILAR_KEYWORDS_PROMPT : Template :=
  [TPart.lit "Find keywords similar to ", TPart.var "rule",
   TPart.lit " in: ", TPart.var "chunks"]

/-- Modelled from the spec: `DECOMPOSE_QUERY_PROMPT` from
`services/prompts.py` (not under `src/`), with a `query` placeholder. -/
def DECOMPOSE_QUERY_PROMPT : Template :=
  [TPart.lit "Decompose the following query into sub-queries: ",
   TPart.var "query"]

/-- Modelled from the spec: `SCHEMA_PROMPT` from `services/prompts.py`
(not under `src/`), with `documents`, `columns` and `entity_types`
placeholders. -/
def SCHEMA_PROMPT : Template :=
  [TPart.lit "Documents: ", TPart.var "documents",
   TPart.lit " Columns: ", TPart.var "columns",
   TPart.lit " Entity types: ", TPart.var "entity_types"]

/-- Modelled from the spec: `BASE_PROMPT` from `services/prompts.py` (not
under `src/`), with `query`, `chunks` and `format_specific_instructions`
placeholders. -/
def BASE_PROMPT : Template :=
  [TPart.lit "Answer the question: ", TPart.var "query",
   TPart.lit " using: ", TPart.var "chunks", TPart.lit " ",
   TPart.var "format_specific_instructions"]

/-- Modelled from the spec: `STR_ARRAY_INSTRUCTIONS` from
`services/prompts.py` (not under `src/`), with `str_rule_line` and
`int_rule_line` placeholders. -/
def STR_ARRAY_INSTRUCTIONS : Template :=
  [TPart.lit "Return strings. ", TPart.var "str_rule_line",
   TPart.lit " ", TPart.var "int_rule_line"]

/-- Modelled from the spec: `INT_ARRAY_INSTRUCTIONS` from
`services/prompts.py` (not under `src/`), with an `int_rule_line`
placeholder. -/
def INT_ARRAY_INSTRUCTIONS : Template :=
  [TPart.lit "Return integers. ", TPart.var "int_rule_line"]

/-- Modelled from the spec: `BOOL_INSTRUCTIONS` from `services/prompts.py`
(not under `src/`), a plain string used verbatim. -/
def BOOL_INSTRUCTIONS : String :=
  "Answer with True or False."

/-- C3: for every input value, `CustomJSONEncoder.default` never raises an
exception to its caller (it is a total function of the embedded value):
any value not handled by one of the eleven dispatch branches is passed to
the standard encoder's `default`, which always raises `TypeError`, and the
`except TypeError` handler returns `str(obj)`. -/
theorem default_fallthrough_returns_strRepr (obj : PyVal)
    (h : handledByDispatch obj = false) :
    CustomJSONEncoder.default obj = PyVal.pyStr (strRepr obj) := by
  cases obj <;> first
    | rfl
    | simp [handledByDispatch] at h

/-- Witness for C3 at the concrete input `None`. -/
theorem default_fallthrough_returns_strRepr_witness :
    CustomJSONEncoder.default PyVal.pyNone = PyVal.pyStr "None" :=
  default_fallthrough_returns_strRepr PyVal.pyNone rfl

/-- C4: for every boolean input, `CustomJSONEncoder.default` returns the
lowercase string "true"/"false", never a boolean; and whenever the first
dispatch guard `isinstance(obj, bool)` holds, the result is that first
branch's `str(obj).lower()`, independent of every later branch. -/
theorem default_bool_is_lowercase_string :
    (∀ b : Bool, CustomJSONEncoder.default (PyVal.pyBool b) =
        PyVal.pyStr (if b then "true" else "false")) ∧
    (∀ obj : PyVal, isBool obj = true →
        CustomJSONEncoder.default obj =
          PyVal.pyStr (pyLower (strRepr obj))) ∧
    (∀ b b' : Bool,
        CustomJSONEncoder.default (PyVal.pyBool b) ≠ PyVal.pyBool b') := by
  refine ⟨?_, ?_, ?_⟩
  · intro b
    cases b <;> rfl
  · intro obj h
    cases obj <;> simp [isBool] at h ⊢
    rfl
  · intro b b' h
    cases b <;> exact PyVal.noConfusion h

/-- Witness for C4: the bool guard holds at `True` and the theorem applies
there. -/
theorem default_bool_is_lowercase_string_witness :
    CustomJSONEncoder.default (PyVal.pyBool true) =
      PyVal.pyStr (pyLower (strRepr (PyVal.pyBool true))) :=
  default_bool_is_lowercase_string.2.1 (PyVal.pyBool true) rfl

/-- C7: for every set or frozenset input, `CustomJSONEncoder.default`
returns `list(obj)`: an array whose elements are exactly the set's
elements. -/
theorem default_set_returns_elements (elems : List PyVal) :
    CustomJSONEncoder.default (PyVal.pySet elems) = PyVal.pyList elems ∧
    CustomJSONEncoder.default (PyVal.pyFrozenset elems) =
      PyVal.pyList elems :=
  ⟨rfl, rfl⟩

/-- C8: for every chunk whose `metadata` field is `None`, `encode_chunk`
produces a dict whose "metadata" entry is `None` (JSON null). -/
theorem encode_chunk_none_metadata_is_null (chunk_id : String)
    (created_at updated_at : Option String) (document_id : String)
    (workspace_ids : List String) (content : String) (embedding : PyVal)
    (tags : List String) (user_metadata : List (String × PyVal)) :
    List.lookup "metadata"
      (CustomJSONEncoder.encode_chunk
        (KChunk.mk chunk_id created_at updated_at document_id workspace_ids
          none content embedding tags user_metadata)) =
      some PyVal.pyNone := rfl

/-- C9: a chunk whose `embedding` is `None` is encoded with "embedding"
equal to the string "None" (the final fallback's `str(obj)`), not JSON
null; and any plain number reaching the fallback — directly or through
the `__dict__` recursion branch — is likewise returned as its string
representation. -/
theorem encode_chunk_none_embedding_is_string :
    (∀ (chunk_id : String) (created_at updated_at : Option String)
        (document_id : String) (workspace_ids : List String)
        (metadata : Option KChunkMetadata) (content : String)
        (tags : List String) (user_metadata : List (String × PyVal)),
      List.lookup "embedding"
        (CustomJSONEncoder.encode_chunk
          (KChunk.mk chunk_id created_at updated_at document_id
            workspace_ids metadata content PyVal.pyNone tags
            user_metadata)) = some (PyVal.pyStr "None")) ∧
    (∀ n : Int, CustomJSONEncoder.default (PyVal.pyInt n) =
        PyVal.pyStr (toString n)) ∧
    (∀ (k : String) (n : Int),
      CustomJSONEncoder.default (PyVal.pyObj [(k, PyVal.pyInt n)]) =
        PyVal.pyDict [(k, PyVal.pyStr (toString n))]) :=
  ⟨fun _ _ _ _ _ _ _ _ _ => rfl, fun _ => rfl, fun _ _ => rfl⟩

/-- C1: for every LLM query function, if the remote structured-output API
call raises (the rendered prompt having been built successfully), the
`except` handler returns the function's fixed fallback value instead of
propagating the exception: `{"answer": None}` for `generate_response`,
`{"keywords": []}` for `get_keywords` and `get_similar_keywords`,
`{"sub-queries": []}` for `decompose_query`, and
`{"schema": {"relationships": []}}` for `generate_schema`. -/
theorem llm_functions_fallback_on_api_error :
    (∀ (SAI IAI BP : Template) (BI : String)
        (call : String → OutputModel → Except String (List (String × PyVal)))
        (query chunks : String) (rules : List Rule) (format : QueryFormat)
        (prompt : String) (output_model : OutputModel) (err : String),
      generate_response_prompt SAI IAI BP BI query chunks rules format =
          Except.ok (prompt, output_model) →
      call prompt output_model = Except.error err →
      generate_response SAI IAI BP BI call query chunks rules format =
        Except.ok [("answer", PyVal.pyNone)]) ∧
    (∀ (KP : Template) (call : String → Except String (List String))
        (query prompt err : String),
      substitute KP [("query", query)] = Except.ok prompt →
      call prompt = Except.error err →
      get_keywords KP call query =
        Except.ok [("keywords", PyVal.pyList [])]) ∧
    (∀ (SKP : Template) (call : String → Except String (List String))
        (chunks : String) (rule : List String) (prompt err : String),
      substitute SKP
          [("rule", strRepr (PyVal.pyList (rule.map PyVal.pyStr))),
           ("chunks", chunks)] = Except.ok prompt →
      call prompt = Except.error err →
      get_similar_keywords SKP call chunks rule =
        Except.ok [("keywords", PyVal.pyList [])]) ∧
    (∀ (DQP : Template) (call : String → Except String (List String))
        (query prompt err : String),
      substitute DQP [("query", query)] = Except.ok prompt →
      call prompt = Except.error err →
      decompose_query DQP call query =
        Except.ok [("sub-queries", PyVal.pyList [])]) ∧
    (∀ (SP : Template)
        (call : String → Except String (List (String × PyVal)))
        (data : Table) (prompt err : String),
      substitute SP (schemaEnv data) = Except.ok prompt →
      call prompt = Except.error err →
      generate_schema SP call data =
        Except.ok [("schema",
          PyVal.pyDict [("relationships", PyVal.pyList [])])]) := by
  refine ⟨?_, ?_, ?_, ?_, ?_⟩
  · intro SAI IAI BP BI call query chunks rules format prompt om err h1 h2
    simp [generate_response, h1, h2]
  · intro KP call query prompt err h1 h2
    simp [get_keywords, h1, h2]
  · intro SKP call chunks rule prompt err h1 h2
    simp [get_similar_keywords, h1, h2]
  · intro DQP call query prompt err h1 h2
    simp [decompose_query, h1, h2]
  · intro SP call data prompt err h1 h2
    simp [generate_schema, h1, h2]

/-- Witness for C1: each of the five functions, called with a remote API
that raises, evaluates to its fixed fallback value. -/
theorem llm_functions_fallback_on_api_error_witness :
    generate_response [] [] [] "B" (fun _ _ => Except.error "boom") "q" "c"
        [] QueryFormat.bool = Except.ok [("answer", PyVal.pyNone)] ∧
    get_keywords [] (fun _ => Except.error "boom") "q" =
        Except.ok [("keywords", PyVal.pyList [])] ∧
    get_similar_keywords [] (fun _ => Except.error "boom") "c" [] =
        Except.ok [("keywords", PyVal.pyList [])] ∧
    decompose_query [] (fun _ => Except.error "boom") "q" =
        Except.ok [("sub-queries", PyVal.pyList [])] ∧
    generate_schema [] (fun _ => Except.error "boom") (Table.mk [] []) =
        Except.ok [("schema",
          PyVal.pyDict [("relationships", PyVal.pyList [])])] :=
  ⟨llm_functions_fallback_on_api_error.1 [] [] [] "B"
      (fun _ _ => Except.error "boom") "q" "c" [] QueryFormat.bool ""
      OutputModel.BoolResponseModel "boom" rfl rfl,
   llm_functions_fallback_on_api_error.2.1 []
      (fun _ => Except.error "boom") "q" "" "boom" rfl rfl,
   llm_functions_fallback_on_api_error.2.2.1 []
      (fun _ => Except.error "boom") "c" [] "" "boom" rfl rfl,
   llm_functions_fallback_on_api_error.2.2.2.1 []
      (fun _ => Except.error "boom") "q" "" "boom" rfl rfl,
   llm_functions_fallback_on_api_error.2.2.2.2 []
      (fun _ => Except.error "boom") (Table.mk [] []) "" "boom" rfl rfl⟩

/-- Counterexample to C2: prompt rendering happens before the `try` block,
so a substitution failure (here a `KeyError` for a placeholder missing
from the mapping) propagates out of `get_keywords` instead of being
replaced by the fallback `{"keywords": []}`. -/
theorem get_keywords_render_error_not_caught :
    get_keywords [TPart.var "missing"] (fun _ => Except.ok ["k"]) "q" =
        Except.error "KeyError: missing" ∧
    get_keywords [TPart.var "missing"] (fun _ => Except.ok ["k"]) "q" ≠
        Except.ok [("keywords", PyVal.pyList [])] := by
  constructor
  · rfl
  · intro h
    rw [show get_keywords [TPart.var "missing"]
          (fun _ => Except.ok ["k"]) "q" =
        Except.error "KeyError: missing" from rfl] at h
    exact Except.noConfusion h

/-- C2 as amended: for every LLM query function, only exceptions raised by
the remote invocation are caught; an exception raised during prompt
rendering (which the source performs before entering the `try` block)
propagates to the caller unchanged. -/
theorem llm_render_error_propagates :
    (∀ (SAI IAI BP : Template) (BI : String)
        (call : String → OutputModel → Except String (List (String × PyVal)))
        (query chunks : String) (rules : List Rule) (format : QueryFormat)
        (e : String),
      generate_response_prompt SAI IAI BP BI query chunks rules format =
          Except.error e →
      generate_response SAI IAI BP BI call query chunks rules format =
        Except.error e) ∧
    (∀ (KP : Template) (call : String → Except String (List String))
        (query e : String),
      substitute KP [("query", query)] = Except.error e →
      get_keywords KP call query = Except.error e) ∧
    (∀ (SKP : Template) (call : String → Except String (List String))
        (chunks : String) (rule : List String) (e : String),
      substitute SKP
          [("rule", strRepr (PyVal.pyList (rule.map PyVal.pyStr))),
           ("chunks", chunks)] = Except.error e →
      get_similar_keywords SKP call chunks rule = Except.error e) ∧
    (∀ (DQP : Template) (call : String → Except String (List String))
        (query e : String),
      substitute DQP [("query", query)] = Except.error e →
      decompose_query DQP call query = Except.error e) ∧
    (∀ (SP : Template)
        (call : String → Except String (List (String × PyVal)))
        (data : Table) (e : String),
      substitute SP (schemaEnv data) = Except.error e →
      generate_schema SP call data = Except.error e) := by
  refine ⟨?_, ?_, ?_, ?_, ?_⟩
  · intro SAI IAI BP BI call query chunks rules format e h
    simp [generate_response, h]
  · intro KP call query e h
    simp [get_keywords, h]
  · intro SKP call chunks rule e h
    simp [get_similar_keywords, h]
  · intro DQP call query e h
    simp [decompose_query, h]
  · intro SP call data e h
    simp [generate_schema, h]

/-- Witness for the amended C2: a rendering failure in `get_keywords`
propagates as the raised `KeyError`. -/
theorem llm_render_error_propagates_witness :
    get_keywords [TPart.var "x"] (fun _ => Except.ok []) "q" =
      Except.error "KeyError: x" :=
  llm_render_error_propagates.2.1 [TPart.var "x"] (fun _ => Except.ok [])
    "q" "KeyError: x" rfl

/-- C5, evaluated at the failing input: `_get_str_rule_line` does return
the empty string when no rule is supplied, but `_get_int_rule_line`
applied to an absent rule falls off the end of the function and returns
the Python `None` (despite its `-> str` annotation), not `""`; template
substitution then renders that `None` as the text "None". -/
theorem int_rule_line_absent_rule_returns_python_none :
    _get_int_rule_line none = none ∧
    strOfPyOption (_get_int_rule_line none) = "None" ∧
    (∀ query : String, _get_str_rule_line none query = "") ∧
    _get_int_rule_line none ≠ some "" :=
  ⟨rfl, rfl, fun _ => rfl, fun h => Option.noConfusion h⟩

/-- C6: for every query string, `_get_str_rule_line` on a `must_return`
rule with options ["A", "B"] yields a string containing both options in
double quotes and the phrase "not found". -/
theorem str_rule_line_must_return_contains_options (query : String) :
    ∃ a b c d e f : String,
      _get_str_rule_line (some (Rule.mk "must_return" (some ["A", "B"]) none))
          query = a ++ "\"A\"" ++ b ∧
      _get_str_rule_line (some (Rule.mk "must_return" (some ["A", "B"]) none))
          query = c ++ "\"B\"" ++ d ∧
      _get_str_rule_line (some (Rule.mk "must_return" (some ["A", "B"]) none))
          query = e ++ "not found" ++ f := by
  refine ⟨"You should only consider these possible values when answering the question: ",
    ", \"B\". If these values do not exist in the raw text chunks, or if they do not correctly answer the question, respond with \"not found\".",
    "You should only consider these possible values when answering the question: \"A\", ",
    ". If these values do not exist in the raw text chunks, or if they do not correctly answer the question, respond with \"not found\".",
    "You should only consider these possible values when answering the question: \"A\", \"B\". If these values do not exist in the raw text chunks, or if they do not correctly answer the question, respond with \"",
    "\".", ?_, ?_, ?_⟩ <;> rfl

/-- C10: `generate_response` reads its rule list only through
`next(rule for rule in rules if ...)`, i.e. the first rule of kind
`must_return`/`may_return` and the first of kind `max_length`; two rule
lists agreeing on those two firsts produce identical behavior, so every
later rule of those kinds is ignored. -/
theorem generate_response_uses_first_matching_rules (SAI IAI BP : Template)
    (BI : String)
    (call : String → OutputModel → Except String (List (String × PyVal)))
    (query chunks : String) (rules1 rules2 : List Rule)
    (format : QueryFormat)
    (hstr : rules1.find? isStrRuleType = rules2.find? isStrRuleType)
    (hlen : rules1.find? isIntRuleType = rules2.find? isIntRuleType) :
    generate_response SAI IAI BP BI call query chunks rules1 format =
      generate_response SAI IAI BP BI call query chunks rules2 format := by
  simp only [generate_response, generate_response_prompt, hstr, hlen]

/-- Witness for C10: appending a second `may_return` rule and a second
`max_length` rule leaves the result of `generate_response` unchanged. -/
theorem generate_response_uses_first_matching_rules_witness :
    generate_response STR_ARRAY_INSTRUCTIONS INT_ARRAY_INSTRUCTIONS
        BASE_PROMPT BOOL_INSTRUCTIONS (fun _ _ => Except.error "boom")
        "q" "c"
        [Rule.mk "must_return" (some ["A"]) none,
         Rule.mk "may_return" (some ["B"]) none,
         Rule.mk "max_length" none (some 3),
         Rule.mk "max_length" none (some 5)] QueryFormat.str =
      generate_response STR_ARRAY_INSTRUCTIONS INT_ARRAY_INSTRUCTIONS
        BASE_PROMPT BOOL_INSTRUCTIONS (fun _ _ => Except.error "boom")
        "q" "c"
        [Rule.mk "must_return" (some ["A"]) none,
         Rule.mk "max_length" none (some 3)] QueryFormat.str :=
  generate_response_uses_first_matching_rules STR_ARRAY_INSTRUCTIONS
    INT_ARRAY_INSTRUCTIONS BASE_PROMPT BOOL_INSTRUCTIONS
    (fun _ _ => Except.error "boom") "q" "c"
    [Rule.mk "must_return" (some ["A"]) none,
     Rule.mk "may_return" (some ["B"]) none,
     Rule.mk "max_length" none (some 3),
     Rule.mk "max_length" none (some 5)]
    [Rule.mk "must_return" (some ["A"]) none,
     Rule.mk "max_length" none (some 3)] QueryFormat.str rfl rfl
